import Mathlib

/-!
Shallow embedding of the core of the `simetry` library (`src/lib.rs`):
the connection-race coordinator (`SimetryConnectionBuilder`, `connect`),
the session contract (`Simetry`), the snapshot contract (`Moment`) with
its default-query policy, and the normalized telemetry record
(`BasicTelemetry`).

Machine/num types are embedded as follows: `std::time::Duration` as a
count of nanoseconds, the `uom` quantity types `Velocity` and
`AngularVelocity` as unit-tagged rational wrappers (their stored SI
value), and `i8` as `Int`.
-/

/-- Embedding of `std::time::Duration` as a nanosecond count. -/
structure Duration where
  nanos : Nat
deriving DecidableEq, Repr

/-- Embedding of `Duration::from_secs`. -/
def Duration.from_secs (s : Nat) : Duration :=
  ⟨s * 1000000000⟩

/-- Embedding of `uom::si::f64::Velocity`: a unit-tagged wrapper around the
stored SI value (metres per second). The numeric carrier is `Rat`; the
concrete values used by this development are exactly representable in
`f64`, so no rounding is modelled. -/
structure Velocity where
  val : Rat
deriving DecidableEq, Repr

/-- Embedding of `uom::si::f64::AngularVelocity`: a unit-tagged wrapper
around the stored SI value (radians per second). -/
structure AngularVelocity where
  val : Rat
deriving DecidableEq, Repr

/-- Embedding of the `Default` instance of `Velocity` (zero value). -/
def Velocity.default : Velocity := ⟨0⟩

/-- Embedding of the `Default` instance of `AngularVelocity` (zero value). -/
def AngularVelocity.default : AngularVelocity := ⟨0⟩

/-- Modelled from the spec: the `racing_flags` module is not present under
`src/`; the spec describes `RacingFlags` as "a set of named flags (e.g.,
caution, checkered) with a default of 'no flags active'", treated as an
opaque collaborator value type. It is modelled as a record of named
boolean flags. -/
structure RacingFlags where
  caution : Bool
  checkered : Bool
deriving DecidableEq, Repr

/-- Modelled from the spec: default `RacingFlags` value, "no flags
active". -/
def RacingFlags.default : RacingFlags :=
  ⟨false, false⟩

/-- Embedding of `BasicTelemetry` (`src/lib.rs` lines 142-150). `gear` is
an `i8` in the source, embedded as `Int`. -/
structure BasicTelemetry where
  gear : Int
  speed : Velocity
  engine_rotation_speed : AngularVelocity
  max_engine_rotation_speed : AngularVelocity
  pit_limiter_engaged : Bool
  in_pit_lane : Bool
deriving DecidableEq, Repr

/-- Embedding of the derived `Default` instance of `BasicTelemetry`:
each field takes its own default (`0` for `i8`, the zero quantity for the
`uom` quantities, `false` for `bool`). -/
def BasicTelemetry.default : BasicTelemetry :=
  { gear := 0
    speed := Velocity.default
    engine_rotation_speed := AngularVelocity.default
    max_engine_rotation_speed := AngularVelocity.default
    pit_limiter_engaged := false
    in_pit_lane := false }

/-- The normalized value record produced by the derived
`Serialize` instance of `BasicTelemetry`: a record of the six fields,
with each `uom` quantity serialized as its stored unitless SI value. -/
structure BasicTelemetryWire where
  gear : Int
  speed : Rat
  engine_rotation_speed : Rat
  max_engine_rotation_speed : Rat
  pit_limiter_engaged : Bool
  in_pit_lane : Bool
deriving DecidableEq, Repr

/-- Embedding of the derived `Serialize` instance of `BasicTelemetry`:
field-by-field, quantities as their stored value. -/
def BasicTelemetry.serialize (t : BasicTelemetry) : BasicTelemetryWire :=
  { gear := t.gear
    speed := t.speed.val
    engine_rotation_speed := t.engine_rotation_speed.val
    max_engine_rotation_speed := t.max_engine_rotation_speed.val
    pit_limiter_engaged := t.pit_limiter_engaged
    in_pit_lane := t.in_pit_lane }

/-- Embedding of the derived `Deserialize` instance of `BasicTelemetry`:
field-by-field, re-tagging each stored value with its quantity type. -/
def BasicTelemetry.deserialize (w : BasicTelemetryWire) : BasicTelemetry :=
  { gear := w.gear
    speed := ⟨w.speed⟩
    engine_rotation_speed := ⟨w.engine_rotation_speed⟩
    max_engine_rotation_speed := ⟨w.max_engine_rotation_speed⟩
    pit_limiter_engaged := w.pit_limiter_engaged
    in_pit_lane := w.in_pit_lane }

/-- Embedding of the `Moment` trait (`src/lib.rs` lines 92-140). A trait
object is a snapshot state type `σ` together with, for each query, either
an adapter override (`some f`) or absence of an override (`none`), in
which case the trait's default body applies. -/
structure Moment (σ : Type) where
  vehicle_left_impl : Option (σ → Bool)
  vehicle_right_impl : Option (σ → Bool)
  basic_telemetry_impl : Option (σ → Option BasicTelemetry)
  shift_point_impl : Option (σ → Option AngularVelocity)
  flags_impl : Option (σ → RacingFlags)
  vehicle_unique_id_impl : Option (σ → Option String)
  ignition_on_impl : Option (σ → Bool)
  starter_on_impl : Option (σ → Bool)

/-- Embedding of `Moment::vehicle_left`: the override if present, else the
default body `false`. -/
def Moment.vehicle_left {σ : Type} (m : Moment σ) (s : σ) : Bool :=
  match m.vehicle_left_impl with
  | some f => f s
  | none => false

/-- Embedding of `Moment::vehicle_right`: default body `false`. -/
def Moment.vehicle_right {σ : Type} (m : Moment σ) (s : σ) : Bool :=
  match m.vehicle_right_impl with
  | some f => f s
  | none => false

/-- Embedding of `Moment::basic_telemetry`: default body `None`. -/
def Moment.basic_telemetry {σ : Type} (m : Moment σ) (s : σ) :
    Option BasicTelemetry :=
  match m.basic_telemetry_impl with
  | some f => f s
  | none => none

/-- Embedding of `Moment::shift_point`: default body `None`. -/
def Moment.shift_point {σ : Type} (m : Moment σ) (s : σ) :
    Option AngularVelocity :=
  match m.shift_point_impl with
  | some f => f s
  | none => none

/-- Embedding of `Moment::flags`: default body `RacingFlags::default()`. -/
def Moment.flags {σ : Type} (m : Moment σ) (s : σ) : RacingFlags :=
  match m.flags_impl with
  | some f => f s
  | none => RacingFlags.default

/-- Embedding of `Moment::vehicle_unique_id`: default body `None`. -/
def Moment.vehicle_unique_id {σ : Type} (m : Moment σ) (s : σ) :
    Option String :=
  match m.vehicle_unique_id_impl with
  | some f => f s
  | none => none

/-- Embedding of `Moment::ignition_on`: default body `true`. -/
def Moment.ignition_on {σ : Type} (m : Moment σ) (s : σ) : Bool :=
  match m.ignition_on_impl with
  | some f => f s
  | none => true

/-- Embedding of `Moment::starter_on`: default body `false`. -/
def Moment.starter_on {σ : Type} (m : Moment σ) (s : σ) : Bool :=
  match m.starter_on_impl with
  | some f => f s
  | none => false

/-- An adapter that overrides none of the optional queries: every
override slot is `none`, so every trait default body applies. -/
def Moment.overridesNone {σ : Type} (m : Moment σ) : Prop :=
  m.vehicle_left_impl = none ∧ m.vehicle_right_impl = none ∧
  m.basic_telemetry_impl = none ∧ m.shift_point_impl = none ∧
  m.flags_impl = none ∧ m.vehicle_unique_id_impl = none ∧
  m.ignition_on_impl = none ∧ m.starter_on_impl = none

/-- The trait object with no overrides at the trivial snapshot state. -/
def Moment.trivial : Moment Unit :=
  ⟨none, none, none, none, none, none, none, none⟩

/-- The fixed menu of queries a `Moment` exposes. -/
inductive MomentQuery
  | vehicle_left
  | vehicle_right
  | basic_telemetry
  | shift_point
  | flags
  | vehicle_unique_id
  | ignition_on
  | starter_on
deriving DecidableEq, Repr

/-- The possible results of a `Moment` query. -/
inductive QueryResult
  | bool (b : Bool)
  | telemetry (t : Option BasicTelemetry)
  | angular (a : Option AngularVelocity)
  | flagSet (f : RacingFlags)
  | ident (s : Option String)
deriving DecidableEq, Repr

/-- Applying one query to a snapshot, in state-passing form. Every
`Moment` method takes `&self` (a shared borrow), so the snapshot state
passed out is the one passed in. -/
def Moment.applyQuery {σ : Type} (m : Moment σ) (q : MomentQuery) (s : σ) :
    QueryResult × σ :=
  match q with
  | .vehicle_left => (.bool (m.vehicle_left s), s)
  | .vehicle_right => (.bool (m.vehicle_right s), s)
  | .basic_telemetry => (.telemetry (m.basic_telemetry s), s)
  | .shift_point => (.angular (m.shift_point s), s)
  | .flags => (.flagSet (m.flags s), s)
  | .vehicle_unique_id => (.ident (m.vehicle_unique_id s), s)
  | .ignition_on => (.bool (m.ignition_on s), s)
  | .starter_on => (.bool (m.starter_on s), s)

/-- Applying a sequence of queries to a snapshot, threading the snapshot
state through and collecting the results. -/
def Moment.runQueries {σ : Type} (m : Moment σ) :
    List MomentQuery → σ → List QueryResult × σ
  | [], s => ([], s)
  | q :: qs, s =>
    let r := m.applyQuery q s
    let rest := m.runQueries qs r.2
    (r.1 :: rest.1, rest.2)

/-- Embedding of the `Simetry` trait (`src/lib.rs` lines 25-33): a session
is a name (stable for the session) together with the `next_moment`
state-transition function, whose `none` result means the connection is
done. `σ` is the session state, `Snap` the snapshot type it yields. -/
structure Simetry (σ Snap : Type) where
  name : String
  next_moment : σ → Option (Snap × σ)

/-- The known backend adapters raced by `SimetryConnectionBuilder::connect`
(`src/lib.rs` lines 57-67). -/
inductive Backend
  | iracing
  | assetto_corsa
  | assetto_corsa_competizione
  | rfactor_2
  | dirt_rally_2
  | generic_http
  | truck_simulator
deriving DecidableEq, Repr

/-- Modelled from the spec: the backend modules declaring the constants
`generic_http::DEFAULT_URI`, `truck_simulator::DEFAULT_URI` and
`dirt_rally_2::Client::DEFAULT_URI` are not present under `src/`, and the
spec leaves their values out of scope ("endpoint/URI configuration
defaults" are external collaborators), so the constants are carried as
parameters of the development. -/
structure BackendConstants where
  generic_http_DEFAULT_URI : String
  truck_simulator_DEFAULT_URI : String
  dirt_rally_2_Client_DEFAULT_URI : String

/-- Embedding of `SimetryConnectionBuilder` (`src/lib.rs` lines 36-41). -/
structure SimetryConnectionBuilder where
  generic_http_uri : String
  truck_simulator_uri : String
  dirt_rally_2_uri : String
  retry_delay : Duration
deriving DecidableEq, Repr

/-- Embedding of `SimetryConnectionBuilder::default` (`src/lib.rs` lines
43-52), parameterized by the external `DEFAULT_URI` constants. -/
def SimetryConnectionBuilder.default (k : BackendConstants) :
    SimetryConnectionBuilder :=
  { generic_http_uri := k.generic_http_DEFAULT_URI
    truck_simulator_uri := k.truck_simulator_DEFAULT_URI
    dirt_rally_2_uri := k.dirt_rally_2_Client_DEFAULT_URI
    retry_delay := Duration.from_secs 5 }

/-- One connection attempt started by `connect`: which backend it targets,
the retry delay passed to it (if any), and the URI passed to it (if
any). -/
structure ConnectionAttempt where
  backend : Backend
  retry : Option Duration
  uri : Option String
deriving DecidableEq, Repr

/-- The seven connection attempts started by
`SimetryConnectionBuilder::connect` (`src/lib.rs` lines 56-67), in source
order, with exactly the arguments the source passes to each backend's
`connect`. -/
def SimetryConnectionBuilder.connectAttempts
    (self : SimetryConnectionBuilder) : List ConnectionAttempt :=
  let retry_delay := self.retry_delay
  [ { backend := .iracing, retry := some retry_delay, uri := none }
  , { backend := .assetto_corsa, retry := some retry_delay, uri := none }
  , { backend := .assetto_corsa_competizione, retry := some retry_delay
    , uri := none }
  , { backend := .rfactor_2, retry := none, uri := none }
  , { backend := .dirt_rally_2, retry := some retry_delay
    , uri := some self.dirt_rally_2_uri }
  , { backend := .generic_http, retry := some retry_delay
    , uri := some self.generic_http_uri }
  , { backend := .truck_simulator, retry := some retry_delay
    , uri := some self.truck_simulator_uri } ]

/-- Environment of one `connect` race: for each backend, the instant (on
a discrete clock) at which its connection attempt would complete, or
`none` if no such simulator ever becomes reachable (the attempt retries
forever and never completes). -/
abbrev CompletionTimes : Type :=
  Backend → Option Nat

/-- One step of the race fold: keep whichever of the current best and the
next completed attempt finished earlier. -/
def raceStep (best : Option (Backend × Nat)) (p : Backend × Nat) :
    Option (Backend × Nat) :=
  match best with
  | none => some p
  | some q => if p.2 < q.2 then some p else some q

/-- The completed attempts of a race, in attempt order, each paired with
its completion instant. -/
def completedAttempts (attempts : List ConnectionAttempt)
    (c : CompletionTimes) : List (Backend × Nat) :=
  attempts.filterMap fun a => (c a.backend).map fun t => (a.backend, t)

/-- The earliest-completing attempt among a list, as `(backend, time)`;
`none` when no attempt in the list ever completes. Ties resolve to the
earlier attempt in the list (a determinization of the `select!`
primitive, which picks whichever branch is ready first). -/
def raceWinner (attempts : List ConnectionAttempt) (c : CompletionTimes) :
    Option (Backend × Nat) :=
  (completedAttempts attempts c).foldl raceStep none

/-- Embedding of `SimetryConnectionBuilder::connect` (`src/lib.rs` lines
55-78): start the seven attempts and commit to the first that completes.
The result is the winning backend's session — `none` models the race
still suspended because no simulator is reachable, never an error. -/
def SimetryConnectionBuilder.connect (self : SimetryConnectionBuilder)
    (c : CompletionTimes) : Option (Backend × Nat) :=
  raceWinner self.connectAttempts c

/-- Embedding of the free function `connect` (`src/lib.rs` lines 82-85):
`SimetryConnectionBuilder::default().connect().await`. -/
def connect (k : BackendConstants) (c : CompletionTimes) :
    Option (Backend × Nat) :=
  (SimetryConnectionBuilder.default k).connect c

/-- A concrete configuration used to exercise the race embedding on
closed inputs. -/
def exampleBuilder : SimetryConnectionBuilder :=
  { generic_http_uri := "http://example/gh"
    truck_simulator_uri := "http://example/ts"
    dirt_rally_2_uri := "http://example/dr2"
    retry_delay := Duration.from_secs 5 }

/-- A concrete race environment in which only the iRacing attempt ever
completes, at instant 3. -/
def exampleCompletion : CompletionTimes := fun b =>
  match b with
  | .iracing => some 3
  | _ => none

/-- Applying any single query returns the snapshot state unchanged:
every `Moment` method takes `&self`. -/
theorem Moment.applyQuery_snd {σ : Type} (m : Moment σ) (q : MomentQuery)
    (s : σ) : (m.applyQuery q s).2 = s := by
  cases q <;> rfl

/-- Deserializing the serialization of any `BasicTelemetry` value yields
the value back, field by field. -/
theorem BasicTelemetry.deserialize_serialize (t : BasicTelemetry) :
    BasicTelemetry.deserialize (BasicTelemetry.serialize t) = t := by
  cases t
  rfl

/-- A race fold that has already seen a completed attempt never forgets
it: the fold started from `some q` never returns `none`. -/
theorem foldl_raceStep_some_ne_none (l : List (Backend × Nat))
    (q : Backend × Nat) : l.foldl raceStep (some q) ≠ none := by
  induction l generalizing q with
  | nil => simp [List.foldl]
  | cons p l ih =>
    show List.foldl raceStep (raceStep (some q) p) l ≠ none
    show List.foldl raceStep (if p.2 < q.2 then some p else some q) l ≠ none
    by_cases h : p.2 < q.2
    · simpa [h] using ih p
    · simpa [h] using ih q

/-- The race has no winner exactly when no attempt completed. -/
theorem raceWinner_eq_none_iff (attempts : List ConnectionAttempt)
    (c : CompletionTimes) :
    raceWinner attempts c = none ↔ completedAttempts attempts c = [] := by
  unfold raceWinner
  cases h : completedAttempts attempts c with
  | nil => simp
  | cons p l =>
    constructor
    · intro hn
      exact absurd hn (foldl_raceStep_some_ne_none l p)
    · intro hc
      exact absurd hc (List.cons_ne_nil p l)

/-- The result of the race fold is one of the folded attempts (or the
initial accumulator). -/
theorem foldl_raceStep_mem (l : List (Backend × Nat))
    (acc : Option (Backend × Nat)) (p : Backend × Nat)
    (h : l.foldl raceStep acc = some p) : p ∈ l ∨ acc = some p := by
  induction l generalizing acc with
  | nil => exact Or.inr h
  | cons q l ih =>
    rcases ih (raceStep acc q) h with hmem | hacc
    · exact Or.inl (List.mem_cons_of_mem q hmem)
    · cases acc with
      | none =>
        cases hacc
        exact Or.inl (List.mem_cons_self _ _)
      | some r =>
        have hacc2 : (if q.2 < r.2 then some q else some r) = some p := hacc
        by_cases hlt : q.2 < r.2
        · rw [if_pos hlt] at hacc2
          cases hacc2
          exact Or.inl (List.mem_cons_self _ _)
        · rw [if_neg hlt] at hacc2
          exact Or.inr hacc2

/-- Every backend appears among the attempts started by `connect`. -/
theorem connectAttempts_covers (cfg : SimetryConnectionBuilder)
    (b : Backend) :
    ∃ a, a ∈ cfg.connectAttempts ∧ a.backend = b := by
  cases b
  case iracing =>
    exact ⟨_, List.Mem.head _, rfl⟩
  case assetto_corsa =>
    exact ⟨_, List.Mem.tail _ (List.Mem.head _), rfl⟩
  case assetto_corsa_competizione =>
    exact ⟨_, List.Mem.tail _ (List.Mem.tail _ (List.Mem.head _)), rfl⟩
  case rfactor_2 =>
    exact ⟨_, List.Mem.tail _ (List.Mem.tail _ (List.Mem.tail _
      (List.Mem.head _))), rfl⟩
  case dirt_rally_2 =>
    exact ⟨_, List.Mem.tail _ (List.Mem.tail _ (List.Mem.tail _
      (List.Mem.tail _ (List.Mem.head _)))), rfl⟩
  case generic_http =>
    exact ⟨_, List.Mem.tail _ (List.Mem.tail _ (List.Mem.tail _
      (List.Mem.tail _ (List.Mem.tail _ (List.Mem.head _))))), rfl⟩
  case truck_simulator =>
    exact ⟨_, List.Mem.tail _ (List.Mem.tail _ (List.Mem.tail _
      (List.Mem.tail _ (List.Mem.tail _ (List.Mem.tail _
      (List.Mem.head _)))))), rfl⟩

/-- The attempt list of `connect`, with the `let`-binding of the retry
delay unfolded. -/
theorem connectAttempts_def (cfg : SimetryConnectionBuilder) :
    cfg.connectAttempts =
    [ ⟨.iracing, some cfg.retry_delay, none⟩
    , ⟨.assetto_corsa, some cfg.retry_delay, none⟩
    , ⟨.assetto_corsa_competizione, some cfg.retry_delay, none⟩
    , ⟨.rfactor_2, none, none⟩
    , ⟨.dirt_rally_2, some cfg.retry_delay, some cfg.dirt_rally_2_uri⟩
    , ⟨.generic_http, some cfg.retry_delay, some cfg.generic_http_uri⟩
    , ⟨.truck_simulator, some cfg.retry_delay
      , some cfg.truck_simulator_uri⟩ ] :=
  rfl

/-- C1 (claim): for every `Moment` implementation whose adapter overrides
none of the optional queries, each query returns exactly its documented
default: `vehicle_left` and `vehicle_right` are `false`,
`basic_telemetry` is absent, `shift_point` is absent, `flags` is the
default (empty) flag set, `vehicle_unique_id` is absent, `ignition_on` is
`true`, and `starter_on` is `false`. -/
theorem moment_defaults_when_no_overrides {σ : Type} (m : Moment σ)
    (s : σ) (h : m.overridesNone) :
    m.vehicle_left s = false ∧ m.vehicle_right s = false ∧
    m.basic_telemetry s = none ∧ m.shift_point s = none ∧
    m.flags s = RacingFlags.default ∧ m.vehicle_unique_id s = none ∧
    m.ignition_on s = true ∧ m.starter_on s = false := by
  obtain ⟨h1, h2, h3, h4, h5, h6, h7, h8⟩ := h
  refine ⟨?_, ?_, ?_, ?_, ?_, ?_, ?_, ?_⟩ <;>
    simp [Moment.vehicle_left, Moment.vehicle_right,
      Moment.basic_telemetry, Moment.shift_point, Moment.flags,
      Moment.vehicle_unique_id, Moment.ignition_on, Moment.starter_on,
      h1, h2, h3, h4, h5, h6, h7, h8]

/-- C1 (witness): the override-free trait object at the trivial snapshot
state satisfies the hypothesis and exhibits every documented default. -/
theorem moment_defaults_when_no_overrides_witness :
    Moment.trivial.overridesNone ∧
    (Moment.trivial.vehicle_left () = false ∧
     Moment.trivial.vehicle_right () = false ∧
     Moment.trivial.basic_telemetry () = none ∧
     Moment.trivial.shift_point () = none ∧
     Moment.trivial.flags () = RacingFlags.default ∧
     Moment.trivial.vehicle_unique_id () = none ∧
     Moment.trivial.ignition_on () = true ∧
     Moment.trivial.starter_on () = false) := by
  have h : Moment.trivial.overridesNone :=
    ⟨rfl, rfl, rfl, rfl, rfl, rfl, rfl, rfl⟩
  exact ⟨h, moment_defaults_when_no_overrides Moment.trivial () h⟩

/-- C3 (claim): `SimetryConnectionBuilder::connect` never fails. In the
embedding the race result is `none` exactly when no backend's attempt
ever completes (the race suspends indefinitely), and whenever it returns
a session the winning backend really completed at the reported instant;
there is no error outcome in the result type. -/
theorem connect_never_fails (cfg : SimetryConnectionBuilder)
    (c : CompletionTimes) :
    (cfg.connect c = none ↔ ∀ b : Backend, c b = none) ∧
    (∀ b t, cfg.connect c = some (b, t) → c b = some t) := by
  constructor
  · rw [show cfg.connect c = raceWinner cfg.connectAttempts c from rfl,
      raceWinner_eq_none_iff]
    unfold completedAttempts
    rw [List.filterMap_eq_nil_iff]
    constructor
    · intro hall b
      obtain ⟨a, ha, rfl⟩ := connectAttempts_covers cfg b
      exact Option.map_eq_none'.mp (hall a ha)
    · intro hnone a _
      rw [hnone a.backend]
      rfl
  · intro b t hw
    have hmem : (b, t) ∈ completedAttempts cfg.connectAttempts c := by
      rcases foldl_raceStep_mem _ none (b, t) hw with hm | hbad
      · exact hm
      · exact absurd hbad (by simp)
    unfold completedAttempts at hmem
    rw [List.mem_filterMap] at hmem
    obtain ⟨a, _, hfa⟩ := hmem
    rw [Option.map_eq_some'] at hfa
    obtain ⟨t2, hct, heq⟩ := hfa
    rw [Prod.mk.injEq] at heq
    obtain ⟨hb, ht⟩ := heq
    subst hb
    subst ht
    exact hct

/-- C3 (witness): in a race environment where only the iRacing attempt
completes (at instant 3), `connect` yields that session, and the theorem
recovers that the winner indeed completed at instant 3. -/
theorem connect_never_fails_witness :
    exampleBuilder.connect exampleCompletion =
      some (Backend.iracing, 3) ∧
    exampleCompletion Backend.iracing = some 3 := by
  have hw : exampleBuilder.connect exampleCompletion =
      some (Backend.iracing, 3) := rfl
  exact ⟨hw,
    (connect_never_fails exampleBuilder exampleCompletion).2 _ _ hw⟩

/-- C4 (claim): `Simetry::next_moment` has exactly two outcomes — a new
snapshot (`some`) or the terminal absent value (`none`, meaning the
connection is done); its result type carries no error variant. -/
theorem next_moment_snapshot_or_done {σ Snap : Type}
    (sim : Simetry σ Snap) (s : σ) :
    (∃ snap s2, sim.next_moment s = some (snap, s2)) ∨
      sim.next_moment s = none := by
  cases h : sim.next_moment s with
  | none => exact Or.inr rfl
  | some r => exact Or.inl ⟨r.1, r.2, rfl⟩

/-- C5 (claim): the default `BasicTelemetry` value has zero/false in
every field: gear 0, zero velocity, zero angular velocities, and both
flags `false`. -/
theorem basic_telemetry_default_zero :
    BasicTelemetry.default.gear = 0 ∧
    BasicTelemetry.default.speed.val = 0 ∧
    BasicTelemetry.default.engine_rotation_speed.val = 0 ∧
    BasicTelemetry.default.max_engine_rotation_speed.val = 0 ∧
    BasicTelemetry.default.pit_limiter_engaged = false ∧
    BasicTelemetry.default.in_pit_lane = false :=
  ⟨rfl, rfl, rfl, rfl, rfl, rfl⟩

/-- C6 (claim): the `BasicTelemetry` value with gear 3, speed 45, engine
rotation speed 6000, maximum 8000 and both flags `false` survives a
serialize/deserialize round trip through the normalized value record
unchanged. -/
theorem basic_telemetry_roundtrip_example :
    BasicTelemetry.deserialize (BasicTelemetry.serialize
      { gear := 3, speed := ⟨45⟩, engine_rotation_speed := ⟨6000⟩
        , max_engine_rotation_speed := ⟨8000⟩, pit_limiter_engaged := false
        , in_pit_lane := false }) =
      { gear := 3, speed := ⟨45⟩, engine_rotation_speed := ⟨6000⟩
        , max_engine_rotation_speed := ⟨8000⟩, pit_limiter_engaged := false
        , in_pit_lane := false } :=
  BasicTelemetry.deserialize_serialize _

/-- C7 (claim): the zero-argument `connect` entry point behaves exactly
as building the default configuration and calling its `connect`: both
compute the same race result in every environment. -/
theorem connect_eq_default_builder_connect (k : BackendConstants)
    (c : CompletionTimes) :
    connect k c = (SimetryConnectionBuilder.default k).connect c :=
  rfl

/-- C8 (claim): queries take the snapshot immutably — running any
sequence of queries leaves the snapshot state unchanged — and repeating
the same query any number of times returns the same value every time. -/
theorem moment_queries_leave_snapshot_unchanged {σ : Type} (m : Moment σ)
    (qs : List MomentQuery) (s : σ) :
    (m.runQueries qs s).2 = s ∧
    ∀ (q : MomentQuery) (n : Nat),
      (m.runQueries (List.replicate n q) s).1 =
        List.replicate n (m.applyQuery q s).1 := by
  constructor
  · induction qs generalizing s with
    | nil => rfl
    | cons q qs ih =>
      show (m.runQueries qs (m.applyQuery q s).2).2 = s
      rw [Moment.applyQuery_snd]
      exact ih s
  · intro q n
    induction n with
    | zero => rfl
    | succ k ih =>
      rw [List.replicate_succ, List.replicate_succ]
      show ((m.applyQuery q s).1 ::
          (m.runQueries (List.replicate k q) (m.applyQuery q s).2).1) =
        (m.applyQuery q s).1 :: List.replicate k (m.applyQuery q s).1
      rw [Moment.applyQuery_snd, ih]

/-- C9 (claim): the default `SimetryConnectionBuilder` sets the retry
delay to exactly 5 seconds and each endpoint field to the corresponding
backend's `DEFAULT_URI` constant. -/
theorem default_builder_fields (k : BackendConstants) :
    (SimetryConnectionBuilder.default k).retry_delay =
      Duration.from_secs 5 ∧
    (Duration.from_secs 5).nanos = 5 * 1000000000 ∧
    (SimetryConnectionBuilder.default k).generic_http_uri =
      k.generic_http_DEFAULT_URI ∧
    (SimetryConnectionBuilder.default k).truck_simulator_uri =
      k.truck_simulator_DEFAULT_URI ∧
    (SimetryConnectionBuilder.default k).dirt_rally_2_uri =
      k.dirt_rally_2_Client_DEFAULT_URI :=
  ⟨rfl, rfl, rfl, rfl, rfl⟩

/-- C10 (claim): `connect` passes the configured retry delay to every
backend's connection attempt except the rFactor 2 attempt, which is
started with no retry delay; every backend, rFactor 2 included, is
attempted. -/
theorem rfactor_2_only_backend_without_retry
    (cfg : SimetryConnectionBuilder) :
    (∀ a ∈ cfg.connectAttempts,
      a.retry = if a.backend = Backend.rfactor_2 then none
        else some cfg.retry_delay) ∧
    ∀ b : Backend, ∃ a, a ∈ cfg.connectAttempts ∧ a.backend = b := by
  constructor
  · intro a ha
    rw [connectAttempts_def] at ha
    simp only [List.mem_cons, List.not_mem_nil, or_false] at ha
    rcases ha with rfl | rfl | rfl | rfl | rfl | rfl | rfl <;> rfl
  · exact connectAttempts_covers cfg

/-- C10 (witness): in the example configuration, the rFactor 2 attempt is
among the started attempts and carries no retry delay. -/
theorem rfactor_2_only_backend_without_retry_witness :
    (⟨Backend.rfactor_2, none, none⟩ : ConnectionAttempt) ∈
      exampleBuilder.connectAttempts ∧
    (⟨Backend.rfactor_2, none, none⟩ : ConnectionAttempt).retry =
      (if (⟨Backend.rfactor_2, none, none⟩ :
          ConnectionAttempt).backend = Backend.rfactor_2 then none
        else some exampleBuilder.retry_delay) := by
  have hmem : (⟨Backend.rfactor_2, none, none⟩ : ConnectionAttempt) ∈
      exampleBuilder.connectAttempts :=
    List.Mem.tail _ (List.Mem.tail _ (List.Mem.tail _ (List.Mem.head _)))
  exact ⟨hmem,
    (rfactor_2_only_backend_without_retry exampleBuilder).1 _ hmem⟩
